import Mathlib

/-!
# Verification of the CloudPico BLE advertising module

Shallow embedding of `src/csensor/ble_advertise.c` / `ble_advertise.h`:
the telemetry encoder (`build_manufacturer_data`, `build_adv_data`) and the
advertisement lifecycle controller (`ble_advertise_init`,
`ble_advertise_update`, `ble_advertise_deinit`, `ble_advertise_is_ready`,
and the `packet_handler` reaction to the BTstack "state = working" event).

Modelling conventions:
* C `uint8_t`/`uint32_t` values are `Nat`; wraparound is explicit (`% 2^32`,
  masks `&&& 0xFF`).  Bytes produced by the encoder are `Nat`s below 256.
* The three `float` fields of `sensor_data_t` are carried as their IEEE-754
  single-precision bit patterns (`Nat` below `2^32`): the C code only ever
  reinterprets them bitwise (`*(uint32_t*)&temp`) and copies the four bytes,
  so the bit pattern is the whole story.
* The module's global state (`ble_initialized`, `device_id`, `reading_id`,
  `adv_data`, `adv_data_len`) is an explicit `BLEState` record threaded
  through the operations.
* Calls into the radio stack (btstack / cyw43) are recorded as a list of
  `TransportCall` values returned by each operation; `printf` logging that
  the claims mention is recorded as explicit `Bool` flags in the result
  records.
-/

/-- `BLE_COMPANY_ID` from `ble_advertise.h` (line 21). -/
def BLE_COMPANY_ID : Nat := 0xFFFF

/-- `BLE_MAGIC_0` from `ble_advertise.h` (line 24). -/
def BLE_MAGIC_0 : Nat := 0x01

/-- `BLE_MAGIC_1` from `ble_advertise.h` (line 25). -/
def BLE_MAGIC_1 : Nat := 0xD0

/-- btstack constant `BLUETOOTH_DATA_TYPE_FLAGS` (Bluetooth SIG assigned
number for the Flags AD element). -/
def BLUETOOTH_DATA_TYPE_FLAGS : Nat := 0x01

/-- btstack constant `BLUETOOTH_DATA_TYPE_MANUFACTURER_SPECIFIC_DATA`
(Bluetooth SIG assigned number for the Manufacturer Specific Data AD
element). -/
def BLUETOOTH_DATA_TYPE_MANUFACTURER_SPECIFIC_DATA : Nat := 0xFF

/-- `build_manufacturer_data` (ble_advertise.c lines 35-75): writes
22 bytes into `buffer`, one `*p++ = ...` per list entry, in source order:
magic (2), device id (4, little-endian), reading id (4, little-endian),
then the bit patterns of temperature, pressure and humidity (4 each,
little-endian).  The float arguments are passed as their `uint32_t` bit
patterns, exactly what `*(uint32_t*)&temp` etc. produce. -/
def build_manufacturer_data (dev_id read_id temp_bits press_bits hum_bits : Nat) :
    List Nat :=
  [ BLE_MAGIC_0, BLE_MAGIC_1,
    dev_id &&& 0xFF, (dev_id >>> 8) &&& 0xFF,
    (dev_id >>> 16) &&& 0xFF, (dev_id >>> 24) &&& 0xFF,
    read_id &&& 0xFF, (read_id >>> 8) &&& 0xFF,
    (read_id >>> 16) &&& 0xFF, (read_id >>> 24) &&& 0xFF,
    temp_bits &&& 0xFF, (temp_bits >>> 8) &&& 0xFF,
    (temp_bits >>> 16) &&& 0xFF, (temp_bits >>> 24) &&& 0xFF,
    press_bits &&& 0xFF, (press_bits >>> 8) &&& 0xFF,
    (press_bits >>> 16) &&& 0xFF, (press_bits >>> 24) &&& 0xFF,
    hum_bits &&& 0xFF, (hum_bits >>> 8) &&& 0xFF,
    (hum_bits >>> 16) &&& 0xFF, (hum_bits >>> 24) &&& 0xFF ]

/-- Result of the length check at ble_advertise.c lines 102-108: the value
stored into the global `adv_data_len`, and whether the
`"ERROR: Advertisement data too long"` message was printed to the console.
`build_adv_data` returns `void`; the printed flag models the `printf` on
line 106, which goes to stdout, not to any caller. -/
structure ClampResult where
  adv_data_len : Nat
  printed_error : Bool
deriving DecidableEq, Repr

/-- Lines 102-108 of `build_adv_data`: `adv_data_len` is set to the number
of bytes written; if that exceeds 31 an error is printed and the length is
clamped to 31. -/
def clamp_adv_data_len (len : Nat) : ClampResult :=
  if len > 31 then ⟨31, true⟩ else ⟨len, false⟩

/-- `build_adv_data` (ble_advertise.c lines 80-109) as a pure function:
returns the bytes written to the global `adv_data` buffer together with the
`ClampResult` for the global `adv_data_len`.  Byte-for-byte in source
order: the 3-byte flags element (`0x02`, type, `0x06`), then the
manufacturer-data element (length `25`, type, little-endian company id,
22-byte payload from `build_manufacturer_data`). -/
def build_adv_data (dev_id read_id temp_bits press_bits hum_bits : Nat) :
    List Nat × ClampResult :=
  let mfg_data := build_manufacturer_data dev_id read_id temp_bits press_bits hum_bits
  let bytes :=
    [ 0x02, BLUETOOTH_DATA_TYPE_FLAGS, 0x06,
      25, BLUETOOTH_DATA_TYPE_MANUFACTURER_SPECIFIC_DATA,
      BLE_COMPANY_ID &&& 0xFF, (BLE_COMPANY_ID >>> 8) &&& 0xFF ] ++ mfg_data
  (bytes, clamp_adv_data_len bytes.length)

/-- Spec-side little-endian encoding of a `uint32`: four bytes, least
significant first (§4.1 of the spec, "all multi-byte integers and IEEE-754
floats little-endian"). -/
def u32le (n : Nat) : List Nat :=
  [n % 256, n / 2 ^ 8 % 256, n / 2 ^ 16 % 256, n / 2 ^ 24 % 256]

lemma byte_lo (x : Nat) : x &&& 0xFF = x % 256 :=
  Nat.and_pow_two_sub_one_eq_mod x 8

lemma byte_shift (x k : Nat) : (x >>> k) &&& 0xFF = x / 2 ^ k % 256 := by
  rw [byte_lo, Nat.shiftRight_eq_div_pow]

/-- **C1.** For every device id, reading id, and triple of float32 bit
patterns, `build_manufacturer_data` produces exactly 22 bytes: the 2-byte
magic constant `0x01 0xD0`, then the device id as a little-endian uint32,
then the reading id as a little-endian uint32, then the temperature,
pressure and humidity bit patterns each little-endian, in that order. -/
theorem build_manufacturer_data_layout
    (dev_id read_id temp_bits press_bits hum_bits : Nat) :
    build_manufacturer_data dev_id read_id temp_bits press_bits hum_bits =
      [0x01, 0xD0] ++ u32le dev_id ++ u32le read_id ++
        u32le temp_bits ++ u32le press_bits ++ u32le hum_bits ∧
    (build_manufacturer_data dev_id read_id temp_bits press_bits hum_bits).length
      = 22 := by
  constructor
  · simp only [build_manufacturer_data, u32le, BLE_MAGIC_0, BLE_MAGIC_1,
      Nat.shiftRight_eq_div_pow, byte_lo, List.append_assoc, List.cons_append,
      List.nil_append]
  · rfl

/-- **C2, counterexample.** The claim says the total wrapped-structure
length reported is 30 bytes; at the concrete input
`dev_id = read_id = bits = 0` the encoder writes and reports 29 bytes
(3-byte flags element + 26-byte manufacturer-data element, the latter
being 1 length byte + the 25 declared bytes).  The spec's "3 + 27 = 30"
counts the manufacturer element as 27 bytes, double-counting one byte. -/
theorem build_adv_data_total_len_29_cex :
    (build_adv_data 0 0 0 0 0).1.length = 29 ∧
    (build_adv_data 0 0 0 0 0).2.adv_data_len = 29 := by
  exact ⟨rfl, rfl⟩

/-- **C2, amended.** For every input, the wrapped advertisement structure
is the 3-byte flags element (length byte `2`, flags type tag, flags value
`0x06` = general discoverable + BR/EDR not supported) followed by a
manufacturer-data element whose length byte is `25` (type tag, 2-byte
little-endian company identifier `0xFFFF`, then the 22-byte payload), and
the reported total length `adv_data_len` is 29 bytes (1 length byte + 25
declared bytes = a 26-byte manufacturer element, after the 3-byte flags
element). -/
theorem build_adv_data_layout
    (dev_id read_id temp_bits press_bits hum_bits : Nat) :
    (build_adv_data dev_id read_id temp_bits press_bits hum_bits).1 =
      [0x02, BLUETOOTH_DATA_TYPE_FLAGS, 0x06] ++
      [25, BLUETOOTH_DATA_TYPE_MANUFACTURER_SPECIFIC_DATA] ++ [0xFF, 0xFF] ++
      build_manufacturer_data dev_id read_id temp_bits press_bits hum_bits ∧
    (build_adv_data dev_id read_id temp_bits press_bits hum_bits).1.length = 29 ∧
    (build_adv_data dev_id read_id temp_bits press_bits hum_bits).2.adv_data_len
      = 29 := by
  refine ⟨?_, rfl, rfl⟩
  simp [build_adv_data, BLE_COMPANY_ID, BLUETOOTH_DATA_TYPE_FLAGS,
    BLUETOOTH_DATA_TYPE_MANUFACTURER_SPECIFIC_DATA, byte_lo,
    Nat.shiftRight_eq_div_pow]

/-- **C5.** For every device id, reading id, and triple of float32 bit
patterns — every `Nat` bit pattern is allowed, which covers NaN, ±Inf and
subnormal encodings — the encoded wrapped structure is at most 31 bytes,
both as actually laid out and as reported in `adv_data_len`. -/
theorem build_adv_data_le_31
    (dev_id read_id temp_bits press_bits hum_bits : Nat) :
    (build_adv_data dev_id read_id temp_bits press_bits hum_bits).1.length ≤ 31 ∧
    (build_adv_data dev_id read_id temp_bits press_bits hum_bits).2.adv_data_len
      ≤ 31 := by
  exact ⟨by simp [build_adv_data, build_manufacturer_data],
    by simp [build_adv_data, build_manufacturer_data, clamp_adv_data_len]⟩

/-- Radio-stack (btstack / cyw43) calls made by the lifecycle controller,
in the order the C code issues them. -/
inductive TransportCall where
  | cyw43ArchInit
  | l2capInit
  | smInit
  | hciAddEventHandler
  | hciPowerOn
  | setAdvParams (min max advType : Nat)
  | setAdvData (len : Nat) (data : List Nat)
  | enableAdv (val : Nat)
  | hciPowerOff
  | cyw43ArchDeinit
deriving DecidableEq, Repr

/-- The module-level globals of ble_advertise.c (lines 21-29):
`ble_initialized`, `device_id`, `reading_id`, and the advertisement buffer
`adv_data` with its length `adv_data_len`. -/
structure BLEState where
  ble_initialized : Bool
  device_id : Nat
  reading_id : Nat
  adv_data : List Nat
  adv_data_len : Nat
deriving DecidableEq, Repr

/-- `sensor_data_t` (ble_advertise.h lines 28-32), each float carried as
its IEEE-754 single-precision bit pattern. -/
structure SensorData where
  temperature_bits : Nat
  pressure_bits : Nat
  humidity_bits : Nat
deriving DecidableEq, Repr

/-- The initial values of the globals: not initialized, both ids 0, and the
31-byte advertisement buffer zeroed with length 0. -/
def initialState : BLEState :=
  { ble_initialized := false, device_id := 0, reading_id := 0,
    adv_data := List.replicate 31 0, adv_data_len := 0 }

/-- Result of `ble_advertise_init`: the C return value, the new globals,
the radio-stack calls made, and two `printf`-to-console flags: the
`"BLE: Already initialized"` message (line 151) and the
`"BLE: cyw43_arch_init returned %d"` warning (line 165). -/
structure InitResult where
  ret : Int
  state : BLEState
  calls : List TransportCall
  printed_already : Bool
  printed_cyw43_warning : Bool
deriving DecidableEq, Repr

/-- `ble_advertise_init` (ble_advertise.c lines 149-183).  The outcome of
the environment's `cyw43_arch_init()` call is the parameter
`cyw43_init_result`; the code inspects it only to print a warning and
continues regardless.  When `ble_initialized` is already set the function
prints "Already initialized" and returns 0 without touching anything;
otherwise it records the device id, resets `reading_id` to 0, initializes
the stack, registers the packet handler, and requests power-on, returning
0. -/
def ble_advertise_init (dev_id : Nat) (cyw43_init_result : Int)
    (s : BLEState) : InitResult :=
  if s.ble_initialized then
    { ret := 0, state := s, calls := [],
      printed_already := true, printed_cyw43_warning := false }
  else
    { ret := 0,
      state := { s with device_id := dev_id, reading_id := 0 },
      calls := [TransportCall.cyw43ArchInit, TransportCall.l2capInit,
                TransportCall.smInit, TransportCall.hciAddEventHandler,
                TransportCall.hciPowerOn],
      printed_already := false,
      printed_cyw43_warning := cyw43_init_result != 0 }

/-- The `BTSTACK_EVENT_STATE` branch of `packet_handler` (ble_advertise.c
lines 122-142) for state `HCI_STATE_WORKING`: sets the advertising
parameters (800/800, ADV_IND), builds the initial advertisement from the
current `device_id` and `reading_id` with zero readings (bit pattern 0 is
0.0f), installs it, enables advertising, and sets `ble_initialized`. -/
def packet_handler_working (s : BLEState) : BLEState × List TransportCall :=
  let b := build_adv_data s.device_id s.reading_id 0 0 0
  ({ s with adv_data := b.1, adv_data_len := b.2.adv_data_len,
            ble_initialized := true },
   [TransportCall.setAdvParams 800 800 0,
    TransportCall.setAdvData b.2.adv_data_len b.1,
    TransportCall.enableAdv 1])

/-- Result of `ble_advertise_update`: the C return value, the new globals,
and the radio-stack calls made. -/
structure UpdateResult where
  ret : Int
  state : BLEState
  calls : List TransportCall
deriving DecidableEq, Repr

/-- `ble_advertise_update` (ble_advertise.c lines 185-207).  Returns -1
without any effect when `ble_initialized` is false or `data` is NULL
(`none`); otherwise increments `reading_id` (uint32 wraparound), rebuilds
the advertisement from the new `reading_id` and the reading's bit
patterns, installs it via `gap_advertisements_set_data`, and returns 0. -/
def ble_advertise_update (data : Option SensorData) (s : BLEState) :
    UpdateResult :=
  if s.ble_initialized then
    match data with
    | none => { ret := -1, state := s, calls := [] }
    | some d =>
        let rid := (s.reading_id + 1) % 2 ^ 32
        let b := build_adv_data s.device_id rid
          d.temperature_bits d.pressure_bits d.humidity_bits
        { ret := 0,
          state := { s with reading_id := rid, adv_data := b.1,
                            adv_data_len := b.2.adv_data_len },
          calls := [TransportCall.setAdvData b.2.adv_data_len b.1] }
  else { ret := -1, state := s, calls := [] }

/-- `ble_advertise_deinit` (ble_advertise.c lines 209-220): a no-op when
not initialized; otherwise disables advertising, powers the radio off,
deinitializes the cyw43 layer, and clears `ble_initialized`. -/
def ble_advertise_deinit (s : BLEState) : BLEState × List TransportCall :=
  if s.ble_initialized then
    ({ s with ble_initialized := false },
     [TransportCall.enableAdv 0, TransportCall.hciPowerOff,
      TransportCall.cyw43ArchDeinit])
  else (s, [])

/-- `ble_advertise_is_ready` (ble_advertise.c lines 222-224). -/
def ble_advertise_is_ready (s : BLEState) : Bool :=
  s.ble_initialized

/-- A concrete Active state: `ble_advertise_init 7` on the pristine globals
followed by the BTstack "working" event. -/
def activeState : BLEState :=
  (packet_handler_working (ble_advertise_init 7 0 initialState).state).1

/-- Spec-side decoder (§4.1 layout, inverted): accepts exactly a 22-byte
payload, checks the 2-byte magic, and reassembles the little-endian uint32
fields device id, reading id, and the three float bit patterns. -/
def decode_payload (bs : List Nat) : Option (Nat × Nat × Nat × Nat × Nat) :=
  match bs with
  | [m0, m1, d0, d1, d2, d3, r0, r1, r2, r3, t0, t1, t2, t3,
     p0, p1, p2, p3, h0, h1, h2, h3] =>
      if m0 = BLE_MAGIC_0 ∧ m1 = BLE_MAGIC_1 then
        some (d0 + 2 ^ 8 * d1 + 2 ^ 16 * d2 + 2 ^ 24 * d3,
              r0 + 2 ^ 8 * r1 + 2 ^ 16 * r2 + 2 ^ 24 * r3,
              t0 + 2 ^ 8 * t1 + 2 ^ 16 * t2 + 2 ^ 24 * t3,
              p0 + 2 ^ 8 * p1 + 2 ^ 16 * p2 + 2 ^ 24 * p3,
              h0 + 2 ^ 8 * h1 + 2 ^ 16 * h2 + 2 ^ 24 * h3)
      else none
  | _ => none

/-- **C8.** For every device id, reading id, and triple of float32 bit
patterns (all genuine uint32 values, i.e. below `2^32`), decoding the
22-byte manufacturer payload with the inverse of the specified layout
recovers exactly the original device id, reading id, and the three bit
patterns, bit for bit. -/
theorem decode_build_manufacturer_data_roundtrip
    (dev_id read_id temp_bits press_bits hum_bits : Nat)
    (hd : dev_id < 2 ^ 32) (hr : read_id < 2 ^ 32) (ht : temp_bits < 2 ^ 32)
    (hp : press_bits < 2 ^ 32) (hh : hum_bits < 2 ^ 32) :
    decode_payload
        (build_manufacturer_data dev_id read_id temp_bits press_bits hum_bits) =
      some (dev_id, read_id, temp_bits, press_bits, hum_bits) := by
  simp only [build_manufacturer_data, decode_payload, BLE_MAGIC_0, BLE_MAGIC_1,
    byte_lo, Nat.shiftRight_eq_div_pow, and_self, if_true, Option.some.injEq,
    Prod.mk.injEq, if_pos]
  refine ⟨?_, ?_, ?_, ?_, ?_⟩ <;> omega

/-- Witness for C8 at a concrete input. -/
theorem decode_build_manufacturer_data_roundtrip_witness :
    decode_payload
        (build_manufacturer_data 0xDEADBEEF 7 0x41AC0000 0x42CA999A 0x42340000) =
      some (0xDEADBEEF, 7, 0x41AC0000, 0x42CA999A, 0x42340000) :=
  decode_build_manufacturer_data_roundtrip 0xDEADBEEF 7 0x41AC0000 0x42CA999A
    0x42340000 (by decide) (by decide) (by decide) (by decide) (by decide)

/-- **C3.** `start()` from a not-yet-initialized state resets the sequence
counter to 0, and every successful `update()` increments `reading_id` by
exactly 1 modulo `2^32` over its previous value, building the payload it
installs with the already-incremented value. -/
theorem reading_id_zero_then_increment
    (dev_id : Nat) (res : Int) (s t : BLEState) (d : SensorData)
    (hs : s.ble_initialized = false) (ht : t.ble_initialized = true) :
    (ble_advertise_init dev_id res s).state.reading_id = 0 ∧
    (ble_advertise_update (some d) t).ret = 0 ∧
    (ble_advertise_update (some d) t).state.reading_id =
      (t.reading_id + 1) % 2 ^ 32 ∧
    (ble_advertise_update (some d) t).calls =
      [TransportCall.setAdvData
        (build_adv_data t.device_id ((t.reading_id + 1) % 2 ^ 32)
          d.temperature_bits d.pressure_bits d.humidity_bits).2.adv_data_len
        (build_adv_data t.device_id ((t.reading_id + 1) % 2 ^ 32)
          d.temperature_bits d.pressure_bits d.humidity_bits).1] := by
  refine ⟨by simp [ble_advertise_init, hs], ?_, ?_, ?_⟩ <;>
    simp [ble_advertise_update, ht]

/-- Witness for C3: from the concrete Active state (counter 0), an update
succeeds and moves the counter to 1. -/
theorem reading_id_zero_then_increment_witness :
    (ble_advertise_init 3 0 initialState).state.reading_id = 0 ∧
    (ble_advertise_update (some ⟨1, 2, 3⟩) activeState).ret = 0 ∧
    (ble_advertise_update (some ⟨1, 2, 3⟩) activeState).state.reading_id = 1 := by
  have h := reading_id_zero_then_increment 3 0 initialState activeState
    ⟨1, 2, 3⟩ rfl rfl
  exact ⟨h.1, h.2.1, h.2.2.1.trans (by decide)⟩

/-- **C4.** `update()` called while not Active, or with a NULL reading,
returns -1 and has no effect: the state (in particular the sequence
counter) is untouched and no radio-stack call is made. -/
theorem update_not_active_or_null_noop (s : BLEState) (data : Option SensorData)
    (h : s.ble_initialized = false ∨ data = none) :
    ble_advertise_update data s = { ret := -1, state := s, calls := [] } := by
  rcases h with h | h
  · simp [ble_advertise_update, h]
  · subst h
    by_cases hb : s.ble_initialized <;> simp [ble_advertise_update, hb]

/-- Witness for C4: an update before any start returns -1 and changes
nothing. -/
theorem update_not_active_or_null_noop_witness :
    ble_advertise_update (some ⟨1, 2, 3⟩) initialState =
      { ret := -1, state := initialState, calls := [] } :=
  update_not_active_or_null_noop initialState (some ⟨1, 2, 3⟩) (Or.inl rfl)

/-- **C6, counterexample.** The claim says `start()` while already Starting
is a no-op that keeps the recorded device identity.  Concretely:
`start(7)` on the pristine state leaves the controller in the Starting
phase (`ble_initialized` still false, the "working" event not yet
delivered); a second `start(5)` then runs the full initialization again —
it overwrites the recorded device id with 5 and does not print
"Already initialized" — because the guard on line 150 tests only
`ble_initialized`, which is set by `packet_handler`, not by `init`. -/
theorem init_while_starting_overwrites_cex :
    (ble_advertise_init 7 0 initialState).state.ble_initialized = false ∧
    (ble_advertise_init 5 0
        (ble_advertise_init 7 0 initialState).state).state.device_id = 5 ∧
    (ble_advertise_init 5 0
        (ble_advertise_init 7 0 initialState).state).printed_already = false :=
  ⟨rfl, rfl, rfl⟩

/-- **C6, amended.** `start()` while the controller is in the Active state
(after the radio-ready event) is a no-op that reports "already
initialized": return 0, no state change (neither the sequence counter nor
the device identity), no radio-stack calls.  While merely Starting (before
the ready event) the guard does not fire and initialization is re-run. -/
theorem init_while_active_noop (dev_id : Nat) (res : Int) (s : BLEState)
    (h : s.ble_initialized = true) :
    ble_advertise_init dev_id res s =
      { ret := 0, state := s, calls := [],
        printed_already := true, printed_cyw43_warning := false } := by
  simp [ble_advertise_init, h]

/-- Witness for the amended C6 at the concrete Active state. -/
theorem init_while_active_noop_witness :
    ble_advertise_init 9 0 activeState =
      { ret := 0, state := activeState, calls := [],
        printed_already := true, printed_cyw43_warning := false } :=
  init_while_active_noop 9 0 activeState rfl

/-- **C7, counterexample.** The claim says an overflow of the 31-byte
budget is reported to the encoder's caller as a distinct error outcome.
In the code the overflow branch (lines 104-108) only clamps
`adv_data_len` and prints to the console: the caller-visible result of an
overflowing length (32 → emitted 31) is identical to the caller-visible
result of a legitimate 31-byte structure, the only difference being the
console printf, and `ble_advertise_update` still returns 0 (success) on
every path that builds an advertisement.  No error outcome distinct from
success ever reaches a caller. -/
theorem clamp_overflow_no_caller_error_cex :
    (clamp_adv_data_len 32).adv_data_len = 31 ∧
    (clamp_adv_data_len 32).adv_data_len = (clamp_adv_data_len 31).adv_data_len ∧
    (clamp_adv_data_len 32).printed_error = true ∧
    (clamp_adv_data_len 31).printed_error = false ∧
    (ble_advertise_update (some ⟨1, 2, 3⟩) activeState).ret = 0 :=
  ⟨rfl, rfl, rfl, rfl, rfl⟩

/-- **C7, amended.** If the computed total length exceeds 31 bytes, the
encoder clamps the emitted `adv_data_len` to 31 and prints an error
message to the console, but no distinct error outcome is returned to the
caller: `build_adv_data` returns no status and `ble_advertise_update`
still returns 0 whenever it builds an advertisement. -/
theorem clamp_overflow_logged_not_returned (len : Nat) (h : 31 < len)
    (s : BLEState) (d : SensorData) (hs : s.ble_initialized = true) :
    clamp_adv_data_len len = ⟨31, true⟩ ∧
    (ble_advertise_update (some d) s).ret = 0 := by
  constructor
  · simp [clamp_adv_data_len, h]
  · simp [ble_advertise_update, hs]

/-- Witness for the amended C7 at length 32 and the concrete Active
state. -/
theorem clamp_overflow_logged_not_returned_witness :
    clamp_adv_data_len 32 = ⟨31, true⟩ ∧
    (ble_advertise_update (some ⟨4, 5, 6⟩) activeState).ret = 0 :=
  clamp_overflow_logged_not_returned 32 (by decide) activeState ⟨4, 5, 6⟩ rfl

/-- **C9.** `stop()` while not initialized (the code's representation of
Uninitialized and Stopped) is a no-op: state unchanged, no radio calls,
no error.  Consequently a second `stop()` right after any `stop()` is
always a no-op. -/
theorem deinit_noop_and_idempotent (s : BLEState) :
    (s.ble_initialized = false → ble_advertise_deinit s = (s, [])) ∧
    ble_advertise_deinit (ble_advertise_deinit s).1 =
      ((ble_advertise_deinit s).1, []) := by
  constructor
  · intro h
    simp [ble_advertise_deinit, h]
  · by_cases h : s.ble_initialized <;> simp [ble_advertise_deinit, h]

/-- Witness for C9: `stop()` on the pristine state is a no-op, and the
second of two consecutive `stop()` calls from the Active state is a
no-op. -/
theorem deinit_noop_and_idempotent_witness :
    ble_advertise_deinit initialState = (initialState, []) ∧
    ble_advertise_deinit (ble_advertise_deinit activeState).1 =
      ((ble_advertise_deinit activeState).1, []) :=
  ⟨(deinit_noop_and_idempotent initialState).1 rfl,
   (deinit_noop_and_idempotent activeState).2⟩

/-- **C10.** `ble_advertise_init` returns 0 for every device id, every
outcome of the environment's `cyw43_arch_init()` call, and every starting
state; the cyw43 outcome influences neither the resulting state nor the
radio-stack calls — it is only logged (the warning flag is set exactly
when initialization proceeds and the outcome is nonzero). -/
theorem init_returns_zero_regardless_of_cyw43
    (dev_id : Nat) (res res' : Int) (s : BLEState) :
    (ble_advertise_init dev_id res s).ret = 0 ∧
    (ble_advertise_init dev_id res s).state =
      (ble_advertise_init dev_id res' s).state ∧
    (ble_advertise_init dev_id res s).calls =
      (ble_advertise_init dev_id res' s).calls ∧
    (ble_advertise_init dev_id res s).printed_cyw43_warning =
      (!s.ble_initialized && res != 0) := by
  by_cases h : s.ble_initialized <;> simp [ble_advertise_init, h]
